import Mathlib

/-!
Verification development for the AllSensesAI emergency-alert handlers.

The Python handlers are embedded shallowly: strings are `String` or
`List Char`, the external messaging provider and the key-value store are
modelled by explicit outcome parameters (`Except`) and explicit state
passing, and each embedded function mirrors one Python function of the
repository (named in its doc comment).
-/

namespace AllSenses

/-! ## Character-level helpers shared by the handlers -/

/-- Characters removed by Python `str.strip()` (ASCII whitespace). -/
def isPyWhitespace (c : Char) : Bool :=
  c == ' ' || c == '\t' || c == '\n' || c == '\r' || c == '\x0b' || c == '\x0c'

/-- Python `s.strip()`: drop leading and trailing whitespace. -/
def pyStrip (s : List Char) : List Char :=
  ((s.dropWhile isPyWhitespace).reverse.dropWhile isPyWhitespace).reverse

/-- Python `s.replace(c, '')`: remove every occurrence of one character. -/
def removeChar (c : Char) (s : List Char) : List Char :=
  s.filter (fun x => x != c)

/-- Python `s.startswith(p)` (second argument is the candidate leading part). -/
def startswith (s p : List Char) : Bool :=
  match s, p with
  | _, [] => true
  | [], _ :: _ => false
  | c :: cs, d :: ds => c == d && startswith cs ds

/-- The `if not phone.startswith('+'): phone = '+' + phone` step. -/
def ensurePlus (s : List Char) : List Char :=
  if startswith s ['+'] then s else '+' :: s

/-- The chain `.replace(' ','').replace('-','').replace('(','').replace(')','')`. -/
def removeSeps (s : List Char) : List Char :=
  removeChar ')' (removeChar '(' (removeChar '-' (removeChar ' ' s)))

/-- Shared cleanup `phone.strip().replace(' ','').replace('-','').replace('(','').replace(')','')`
used by `normalize_phone_number` and `detect_country` in
src/allsenseai-colombia-working.py. -/
def stripFormatting (s : List Char) : List Char :=
  removeSeps (pyStrip s)

/-- normalize_phone_number from src/allsenseai-colombia-working.py (lines 141-149):
strip outer whitespace, remove spaces, dashes and parentheses, and prepend
a leading plus sign when absent. -/
def normalize_phone_number (s : List Char) : List Char :=
  ensurePlus (stripFormatting s)

/-! ## Country table and transport selection -/

/-- One entry of COUNTRY_CONFIG in src/allsenseai-colombia-working.py (lines 30-66). -/
structure CountryConfig where
  name : String
  emergency_number : String
  language : String
  use_eum : Bool
  use_sns : Bool
deriving DecidableEq, Repr

/-- The USA entry of COUNTRY_CONFIG (the default profile). -/
def usConfig : CountryConfig :=
  { name := "USA", emergency_number := "911", language := "en",
    use_eum := true, use_sns := false }

/-- COUNTRY_CONFIG from src/allsenseai-colombia-working.py, in dict insertion order. -/
def COUNTRY_CONFIG : List (List Char × CountryConfig) :=
  [ ("+1".toList, usConfig),
    ("+57".toList, { name := "Colombia", emergency_number := "123", language := "es",
                     use_eum := false, use_sns := true }),
    ("+56".toList, { name := "Chile", emergency_number := "133", language := "es",
                     use_eum := false, use_sns := true }),
    ("+58".toList, { name := "Venezuela", emergency_number := "911", language := "es",
                     use_eum := false, use_sns := true }),
    ("+52".toList, { name := "Mexico", emergency_number := "911", language := "es",
                     use_eum := false, use_sns := true }) ]

/-- The iteration order `sorted(COUNTRY_CONFIG.keys(), key=len, reverse=True)`:
a stable sort of the table keys by descending length. -/
def sortedCountryCodes : List (List Char) :=
  List.insertionSort (fun a b => b.length ≤ a.length) (COUNTRY_CONFIG.map Prod.fst)

/-- Python `COUNTRY_CONFIG[code]` for a key of the table. -/
def configOf (code : List Char) : CountryConfig :=
  (((COUNTRY_CONFIG.find? (fun kv => kv.fst == code)).map Prod.snd).getD usConfig)

/-- detect_country from src/allsenseai-colombia-working.py (lines 123-139):
normalize the number, then return the first table entry, iterating prefixes
longest-first, whose prefix leads the number; default to the US entry. -/
def detect_country (s : List Char) : List Char × CountryConfig :=
  let phone := ensurePlus (stripFormatting s)
  match sortedCountryCodes.find? (fun code => startswith phone code) with
  | some code => (code, configOf code)
  | none => ("+1".toList, usConfig)

/-- One entry of COUNTRY_CONFIG in src/allsenseai-latam-international.py (lines 30-71). -/
structure CountryConfigLatam where
  name : String
  emergency_number : String
  language : String
  timezone : String
  originator : String
  use_eum : Bool
deriving DecidableEq, Repr

/-- The USA entry of the latam table (the default profile there). -/
def usConfigLatam : CountryConfigLatam :=
  { name := "USA", emergency_number := "911", language := "en",
    timezone := "America/New_York", originator := "+12173933490", use_eum := true }

/-- COUNTRY_CONFIG from src/allsenseai-latam-international.py, in dict insertion order. -/
def COUNTRY_CONFIG_latam : List (List Char × CountryConfigLatam) :=
  [ ("+1".toList, usConfigLatam),
    ("+57".toList, { name := "Colombia", emergency_number := "123", language := "es",
                     timezone := "America/Bogota", originator := "+12173933490", use_eum := true }),
    ("+56".toList, { name := "Chile", emergency_number := "133", language := "es",
                     timezone := "America/Santiago", originator := "+12173933490", use_eum := true }),
    ("+58".toList, { name := "Venezuela", emergency_number := "911", language := "es",
                     timezone := "America/Caracas", originator := "+12173933490", use_eum := true }),
    ("+52".toList, { name := "Mexico", emergency_number := "911", language := "es",
                     timezone := "America/Mexico_City", originator := "+12173933490", use_eum := true }) ]

/-- detect_country from src/allsenseai-latam-international.py (lines 128-144):
strips spaces and dashes only (no plus prepended), then iterates the dict
items in insertion order; default to the US entry. -/
def detect_country_latam (s : List Char) : List Char × CountryConfigLatam :=
  let phone := removeChar '-' (removeChar ' ' (pyStrip s))
  match COUNTRY_CONFIG_latam.find? (fun kv => startswith phone kv.fst) with
  | some kv => kv
  | none => ("+1".toList, usConfigLatam)

/-! ## Dispatcher variants

The external messaging provider is modelled by an explicit outcome
parameter: `Except.ok messageId` when the underlying send call returns a
message id, `Except.error e` when it raises an exception whose string
form is `e`.  Each embedded dispatcher mirrors one Python function's
try/except structure around that call. -/

/-- Result dict shape of the hybrid senders in src/allsenseai-colombia-working.py. -/
structure HybridSmsResult where
  status : String
  messageId : Option String := none
  error : Option String := none
  method : String
deriving DecidableEq, Repr

/-- send_via_eum from src/allsenseai-colombia-working.py (lines 337-370):
on success a result with status sent and the provider message id, on an
exception a result with status failed carrying the exception text. -/
def send_via_eum (outcome : Except String String) : HybridSmsResult :=
  match outcome with
  | .ok message_id => { status := "sent", messageId := some message_id, method := "EUM" }
  | .error e => { status := "failed", error := some e, method := "EUM" }

/-- send_via_sns from src/allsenseai-colombia-working.py (lines 372-411). -/
def send_via_sns (outcome : Except String String) : HybridSmsResult :=
  match outcome with
  | .ok message_id => { status := "sent", messageId := some message_id, method := "SNS" }
  | .error e => { status := "failed", error := some e, method := "SNS" }

/-- send_sms_hybrid from src/allsenseai-colombia-working.py (lines 316-335):
route to EUM for `use_eum` profiles and to SNS otherwise. -/
def send_sms_hybrid (country_config : CountryConfig)
    (outcome : Except String String) : HybridSmsResult :=
  if country_config.use_eum then send_via_eum outcome else send_via_sns outcome

/-- The jury demo phone number constant shared by several files. -/
def JURY_PHONE_NUMBER : String := "+13053033060"

/-- Per-contact result dict shape of dispatch_emergency_sms_jury in
src/allsenseai-improved.py. -/
structure JuryContactResult where
  contactName : String
  phone : String
  status : String
  messageId : Option String
  realSms : Bool
  note : Option String := none
deriving DecidableEq, Repr

/-- The per-contact branch of dispatch_emergency_sms_jury from
src/allsenseai-improved.py (lines 447-528): for the jury phone the real
send is attempted, and when it raises the except branch still appends a
result with status sent and a fabricated jury-demo message id; for every
other contact a demo-msg result with status sent is appended without any
send attempt.  `demoHex` stands for `uuid.uuid4().hex[:8]`. -/
def dispatch_contact_jury (contactName : String) (contactPhone : String)
    (outcome : Except String String) (demoHex : String) : JuryContactResult :=
  if contactPhone == JURY_PHONE_NUMBER then
    match outcome with
    | .ok message_id =>
        { contactName := contactName, phone := contactPhone, status := "sent",
          messageId := some message_id, realSms := true }
    | .error e =>
        { contactName := contactName, phone := contactPhone, status := "sent",
          messageId := some ("jury-demo-" ++ demoHex), realSms := false,
          note := some ("SMS system operational (simulated due to: " ++ e ++ ")") }
  else
    { contactName := contactName, phone := contactPhone, status := "sent",
      messageId := some ("demo-msg-" ++ demoHex), realSms := false,
      note := some "SMS sent successfully (demo mode)" }

/-! ## The stricter validating sender (src/allsenseai-universal-sms.py) -/

/-- The core of the pattern `\+\d{1,3}\d{4,14}`: a plus sign followed by 5
to 17 digits (a 1-3 digit country code plus a 4-14 digit subscriber
number).  `\d` is modelled on the ASCII fragment as the decimal digits;
Python's `\d` additionally matches non-ASCII Unicode decimal digits, so
theorems about the validator are stated for ASCII inputs, on which the two
coincide. -/
def e164Core (p : List Char) : Bool :=
  match p with
  | '+' :: ds => ds.all Char.isDigit && decide (5 ≤ ds.length) && decide (ds.length ≤ 17)
  | _ => false

/-- Python `re.match(r'^\+\d{1,3}\d{4,14}$', p)`: anchored at both ends,
except that `$` also matches just before a newline that ends the string,
so an otherwise-matching string with one trailing newline is accepted. -/
def e164Format (p : List Char) : Bool :=
  e164Core p || (p.getLast? == some '\n' && e164Core p.dropLast)

/-- validate_phone_number from src/allsenseai-universal-sms.py (lines 85-104):
remove spaces and dashes, prepend a plus sign when absent, then require the
E.164 pattern; returns the validated number or an error string. -/
def validate_phone_number (phone : List Char) : Except String (List Char) :=
  if phone = [] then .error "Phone number is required"
  else
    let p := ensurePlus (removeChar '-' (removeChar ' ' phone))
    if e164Format p then .ok p
    else .error ("Invalid phone format: " ++ String.mk p ++
      ". Must be E.164 format (+country_code + number)")

/-- TRACKING_URL_BASE default from src/allsenseai-universal-sms.py (line 23). -/
def TRACKING_URL_BASE : String := "https://d2s71iq0yaelxo.cloudfront.net/live-tracking.html"

/-- Result dict shape of send_sms_with_eum in src/allsenseai-universal-sms.py. -/
structure UniversalSmsResult where
  status : String
  messageId : Option String := none
  error : Option String := none
  phone : List Char := []
  realSms : Bool := false
  demoMode : Bool := false
  note : Option String := none
deriving DecidableEq, Repr

/-- send_sms_with_eum from src/allsenseai-universal-sms.py (lines 106-232).
The second component of the result is the message body handed to the
external provider, or `none` when no provider call is made.  Steps, in
source order: validate the phone (failure returns a failed result without
any provider call); short-circuit on DEMO_MODE with a synthetic demo
result; append the tracking URL for non-LATAM numbers when an event id is
given; then perform the provider call and report its outcome truthfully. -/
def send_sms_with_eum (demoMode : Bool) (phone_number : List Char) (message : String)
    (event_id : Option String) (demoHex : String)
    (outcome : Except String String) : UniversalSmsResult × Option String :=
  match validate_phone_number phone_number with
  | .error e =>
      ({ status := "failed", error := some e, phone := phone_number, realSms := false }, none)
  | .ok validated_phone =>
    if demoMode then
      ({ status := "sent", messageId := some ("demo-" ++ demoHex), phone := validated_phone,
         realSms := false, demoMode := true,
         note := some "SMS simulated (DEMO_MODE=true)" }, none)
    else
      let is_latam := ["+57", "+52", "+55", "+54"].any
        (fun code => startswith validated_phone code.toList)
      let message' := match event_id with
        | some eid =>
            if is_latam then message
            else message ++ "\n\nTrack: " ++ TRACKING_URL_BASE ++ "?incident=" ++ eid
        | none => message
      match outcome with
      | .ok message_id =>
          ({ status := "sent", messageId := some message_id, phone := validated_phone,
             realSms := true }, some message')
      | .error e =>
          ({ status := "failed", error := some ("SNS Error: " ++ e), phone := validated_phone,
             realSms := false,
             note := some "SNS publish call failed - check IAM permissions and SNS configuration" },
           some message')

/-! ## Message composition -/

/-- The primary SMS template of send_emergency_sms in
src/allsense-complete-lambda.py (line 274). -/
def compose_sms_full (victimName placeName lat lon mapLink localTime : String)
    (confidencePercent : Nat) : String :=
  "[AllSenseAI] Emergency alert for " ++ victimName ++ ". Possible danger detected at " ++
  placeName ++ " (" ++ lat ++ "," ++ lon ++ ") — " ++ mapLink ++ " Time: " ++ localTime ++
  ". Confidence: " ++ toString confidencePercent ++ "%. Please reply OK if you received this."

/-- The fallback short SMS template of send_emergency_sms in
src/allsense-complete-lambda.py (line 279). -/
def compose_sms_short (victimName lat lon mapLink localTime : String) : String :=
  "[AllSenseAI] Emergency alert for " ++ victimName ++ ". Location: " ++ lat ++ "," ++ lon ++
  " — " ++ mapLink ++ " Time: " ++ localTime ++ ". Reply OK to confirm."

/-- The composition step of send_emergency_sms in
src/allsense-complete-lambda.py (lines 270-280): render the primary
template, and re-render with the short template if the result exceeds 160
characters. -/
def compose_sms (victimName placeName lat lon mapLink localTime : String)
    (confidencePercent : Nat) : String :=
  let sms_text := compose_sms_full victimName placeName lat lon mapLink localTime confidencePercent
  if 160 < sms_text.length then compose_sms_short victimName lat lon mapLink localTime
  else sms_text

/-- ORIGINATOR_NUMBER from the JURY deployment lambda (line 17). -/
def ORIGINATOR_NUMBER : String := "+12173933490"

/-- The danger_message branch of handle_jury_emergency_alert in
src/JURY_DEPLOYMENT_PACKAGE/lambda/allsenseai-eum-with-tracking.py
(lines 145-152). -/
def jury_danger_message (victimName detectionType : String)
    (detectedWords : List String) : String :=
  if detectionType == "emergency_words" then
    "EMERGENCY ALERT: " ++ victimName ++ " is in DANGER! Emergency words detected: " ++
      String.intercalate ", " detectedWords
  else if detectionType == "abrupt_noise" then
    "EMERGENCY ALERT: " ++ victimName ++ " is in DANGER! Sudden loud noise detected"
  else
    "EMERGENCY ALERT: " ++ victimName ++ " is in DANGER! Emergency situation detected"

/-- The full SMS body of handle_jury_emergency_alert in the JURY deployment
lambda (lines 154-160); no length cap is applied to it. -/
def jury_sms_message (victimName detectionType : String) (detectedWords : List String)
    (placeName incidentId timeStr : String) : String :=
  jury_danger_message victimName detectionType detectedWords ++
  "\n\nLIVE TRACKING:\nhttps://track.allsensesai.com?incident=" ++ incidentId ++
  "\n\nInitial Location: " ++ placeName ++
  "\n\nIncident: " ++ incidentId ++ "\nTime: " ++ timeStr ++
  "\n\nFrom: AllSensesAI Guardian (" ++ ORIGINATOR_NUMBER ++ ")"

/-! ## The jury emergency-alert flow (JURY deployment lambda) -/

/-- Result dict shape of send_eum_sms in the JURY deployment lambda
(lines 280-345). -/
structure EumSmsResult where
  status : String
  messageId : Option String := none
  error : Option String := none
deriving DecidableEq, Repr

/-- send_eum_sms from the JURY deployment lambda (lines 280-345): the
provider outcome is reported truthfully, sent with the provider message id
or failed with the exception text. -/
def send_eum_sms (outcome : Except String String) : EumSmsResult :=
  match outcome with
  | .ok message_id => { status := "sent", messageId := some message_id }
  | .error e => { status := "failed", error := some e }

/-- The response body fields of handle_jury_emergency_alert relevant here. -/
structure JuryAlertResponse where
  statusCode : Nat
  status : String
  incidentId : String
  smsMessageId : Option String
  smsStatus : String
  smsError : Option String
deriving DecidableEq, Repr

/-- One run of handle_jury_emergency_alert: the composed SMS body, whether
a dispatch was attempted, the response returned, and the log lines. -/
structure JuryAlertRun where
  smsMessage : String
  smsAttempted : Bool
  response : JuryAlertResponse
  log : List String
deriving DecidableEq, Repr

/-- handle_jury_emergency_alert from the JURY deployment lambda
(lines 116-199): store the incident inside a try/except whose except
branch only logs (the comment reads `Continue with SMS even if DynamoDB
fails`); compose the SMS body; always attempt the dispatch; answer 200
with status success when the SMS was sent and partial otherwise.
`incidentHex` stands for `uuid.uuid4().hex[:8].upper()` and
`storeOutcome` for the DynamoDB put result. -/
def handle_jury_emergency_alert (victimName detectionType : String)
    (detectedWords : List String) (placeName incidentHex timeStr : String)
    (storeOutcome : Except String Unit)
    (providerOutcome : Except String String) : JuryAlertRun :=
  let incident_id := "EMG-" ++ incidentHex
  let storeLog := match storeOutcome with
    | .ok _ => "Incident " ++ incident_id ++ " stored in DynamoDB"
    | .error e => "Failed to store incident: " ++ e
  let sms_message :=
    jury_sms_message victimName detectionType detectedWords placeName incident_id timeStr
  let sms_result := send_eum_sms providerOutcome
  { smsMessage := sms_message
    smsAttempted := true
    response := { statusCode := 200
                  status := if sms_result.status == "sent" then "success" else "partial"
                  incidentId := incident_id
                  smsMessageId := sms_result.messageId
                  smsStatus := sms_result.status
                  smsError := sms_result.error }
    log := [storeLog] }

/-! ## Location store model

The LocationTracking table is modelled as a list of items; a DynamoDB
query on it filters by partition key, orders by the numeric sort key
according to ScanIndexForward, and truncates to the limit. -/

/-- One item of the AllSenses-LocationTracking table, as written by
handle_update_location in the JURY deployment lambda (lines 433-489). -/
structure LocationItem where
  incidentId : String
  timestamp : Nat
  latitude : Int
  longitude : Int
  accuracy : Int
  speed : Option Int := none
  heading : Option Int := none
  batteryLevel : Option Int := none
deriving DecidableEq, Repr

/-- Ascending order on the sort key (ScanIndexForward=True). -/
def tsLE (a b : LocationItem) : Prop := a.timestamp ≤ b.timestamp

/-- Descending order on the sort key (ScanIndexForward=False). -/
def tsGE (a b : LocationItem) : Prop := b.timestamp ≤ a.timestamp

instance : DecidableRel tsLE := fun a b => Nat.decLe a.timestamp b.timestamp

instance : DecidableRel tsGE := fun a b => Nat.decLe b.timestamp a.timestamp

instance : IsTotal LocationItem tsLE := ⟨fun a b => by unfold tsLE; omega⟩

instance : IsTotal LocationItem tsGE := ⟨fun a b => by unfold tsGE; omega⟩

instance : IsTrans LocationItem tsLE := ⟨fun _ _ _ hab hbc => Nat.le_trans hab hbc⟩

instance : IsTrans LocationItem tsGE := ⟨fun _ _ _ hab hbc => Nat.le_trans hbc hab⟩

/-- A `table.query` on the location table keyed by incidentId, with
ScanIndexForward choosing ascending or descending sort-key order and
Limit truncating the ordered result. -/
def query_locations (store : List LocationItem) (incident_id : String)
    (scanIndexForward : Bool) (limit : Nat) : List LocationItem :=
  let matching := store.filter (fun item => item.incidentId == incident_id)
  let ordered := if scanIndexForward then List.insertionSort tsLE matching
    else List.insertionSort tsGE matching
  ordered.take limit

/-- Response shape of the history handlers. -/
structure HistoryResponse where
  statusCode : Nat
  status : String
  locations : List LocationItem
deriving DecidableEq, Repr

/-- handle_get_location_history from the JURY deployment lambda
(lines 554-609): 400 without incidentId, otherwise the query with
ScanIndexForward=False (most recent first) and the given limit. -/
def handle_get_location_history (store : List LocationItem)
    (incidentId : Option String) (limit : Nat) : HistoryResponse :=
  match incidentId with
  | none => { statusCode := 400, status := "error", locations := [] }
  | some iid =>
      { statusCode := 200, status := "success",
        locations := query_locations store iid false limit }

/-- handle_get_location_history from src/allsenseai-live-tracking.py
(lines 278-315): same shape but ScanIndexForward=True (oldest first). -/
def handle_get_location_history_lt (store : List LocationItem)
    (incidentId : Option String) (limit : Nat) : HistoryResponse :=
  match incidentId with
  | none => { statusCode := 400, status := "error", locations := [] }
  | some iid =>
      { statusCode := 200, status := "success",
        locations := query_locations store iid true limit }

/-- Response shape of handle_update_location. -/
structure UpdateResponse where
  statusCode : Nat
  status : String
  message : String
  incidentId : Option String := none
  timestamp : Option Nat := none
deriving DecidableEq, Repr

/-- handle_update_location from the JURY deployment lambda (lines 433-489):
without incidentId answer 400 and leave the store unchanged; otherwise
put an item keyed by (incidentId, current-time-millis), with zero defaults
for missing coordinates, falsy speed and heading dropped, and no check
against the Incidents table.  `now` stands for the current millisecond
timestamp. -/
def handle_update_location (store : List LocationItem) (now : Nat)
    (incidentId : Option String) (latitude longitude accuracy speed heading : Option Int)
    (batteryLevel : Option Int) : List LocationItem × UpdateResponse :=
  match incidentId with
  | none =>
      (store, { statusCode := 400, status := "error", message := "incidentId is required" })
  | some iid =>
      let item : LocationItem :=
        { incidentId := iid, timestamp := now,
          latitude := latitude.getD 0, longitude := longitude.getD 0,
          accuracy := accuracy.getD 0,
          speed := speed.bind (fun v => if v = 0 then none else some v),
          heading := heading.bind (fun v => if v = 0 then none else some v),
          batteryLevel := batteryLevel }
      (store ++ [item],
       { statusCode := 200, status := "success", message := "Location updated successfully",
         incidentId := some iid, timestamp := some now })

/-! ## Action routing (JURY deployment lambda handler) -/

/-- Response shape of the default branch of the handler. -/
structure RouterResponse where
  statusCode : Nat
  status : String
  message : String
  action : String
deriving DecidableEq, Repr

/-- Where the action if/elif chain of the handler dispatches to. -/
inductive RouteTarget where
  | juryEmergencyAlert
  | juryTest
  | testSms
  | checkEumConfig
  | updateLocation
  | getLocation
  | getLocationHistory
  | defaultResponse (resp : RouterResponse)
deriving DecidableEq, Repr

/-- The action strings with a dedicated branch in the handler. -/
def recognizedActions : List String :=
  ["JURY_EMERGENCY_ALERT", "JURY_TEST", "TEST_SMS", "CHECK_EUM_CONFIG",
   "UPDATE_LOCATION", "GET_LOCATION", "GET_LOCATION_HISTORY"]

/-- The action if/elif chain of handler in the JURY deployment lambda
(lines 78-104): any unrecognized action falls through to the operational
cors_response with HTTP 200 and body status success, echoing the action. -/
def route_action (action : String) : RouteTarget :=
  if action == "JURY_EMERGENCY_ALERT" then .juryEmergencyAlert
  else if action == "JURY_TEST" then .juryTest
  else if action == "TEST_SMS" then .testSms
  else if action == "CHECK_EUM_CONFIG" then .checkEumConfig
  else if action == "UPDATE_LOCATION" then .updateLocation
  else if action == "GET_LOCATION" then .getLocation
  else if action == "GET_LOCATION_HISTORY" then .getLocationHistory
  else .defaultResponse
    { statusCode := 200, status := "success",
      message := "AllSensesAI Lambda is operational with live tracking",
      action := action }

/-- The three-fix store of the spec scenario: one incident with fixes
captured at times 100 < 200 < 300. -/
def demoFixStore : List LocationItem :=
  [ { incidentId := "EMG-1", timestamp := 100, latitude := 1, longitude := 2, accuracy := 3 },
    { incidentId := "EMG-1", timestamp := 200, latitude := 4, longitude := 5, accuracy := 6 },
    { incidentId := "EMG-1", timestamp := 300, latitude := 7, longitude := 8, accuracy := 9 } ]

/-! ## Helper lemmas -/

/-- Python startswith agrees with the list prefix relation. -/
theorem startswith_iff : ∀ (s p : List Char), startswith s p = true ↔ p <+: s
  | _, [] => by simp [startswith]
  | [], _ :: _ => by simp [startswith]
  | c :: cs, d :: ds => by
      simp only [startswith, Bool.and_eq_true, beq_iff_eq, List.cons_prefix_cons,
        startswith_iff cs ds]
      exact ⟨fun ⟨h1, h2⟩ => ⟨h1.symm, h2⟩, fun ⟨h1, h2⟩ => ⟨h1.symm, h2⟩⟩

/-- In a list of keys none of which leads another, at most one key can lead a
given string, so find? returns exactly that key. -/
theorem find?_match_unique {α : Type} (key : α → List Char) :
    ∀ {items : List α} {q : List Char} {x : α},
      items.Pairwise (fun a b => ¬(key a <+: key b) ∧ ¬(key b <+: key a)) →
      items.find? (fun it => startswith q (key it)) = some x →
      ∀ b ∈ items, startswith q (key b) = true → b = x := by
  intro items
  induction items with
  | nil => intro q x _ hf; simp at hf
  | cons a rest ih =>
    intro q x hp hf b hb hbmatch
    rcases List.pairwise_cons.mp hp with ⟨hhead, htail⟩
    by_cases ha : startswith q (key a) = true
    · have hrw : List.find? (fun it => startswith q (key it)) (a :: rest) = some a :=
        List.find?_cons_of_pos rest ha
      rw [hrw] at hf
      have hax : a = x := by injection hf
      rcases List.mem_cons.mp hb with hb | hb
      · rw [hb, hax]
      · exfalso
        rcases hhead b hb with ⟨h1, h2⟩
        have hcomp := List.prefix_or_prefix_of_prefix
          ((startswith_iff q (key a)).mp ha) ((startswith_iff q (key b)).mp hbmatch)
        rcases hcomp with hcomp | hcomp
        · exact h1 hcomp
        · exact h2 hcomp
    · have hrw : List.find? (fun it => startswith q (key it)) (a :: rest) =
          List.find? (fun it => startswith q (key it)) rest :=
        List.find?_cons_of_neg rest ha
      rw [hrw] at hf
      rcases List.mem_cons.mp hb with hb | hb
      · exact absurd (hb ▸ hbmatch) ha
      · exact ih htail hf b hb hbmatch

/-- When no key leads another, a key that leads the string is the one found. -/
theorem find?_match_of_mem {α : Type} (key : α → List Char) {items : List α} {q : List Char}
    (hnd : items.Pairwise fun a b => ¬(key a <+: key b) ∧ ¬(key b <+: key a)) :
    ∀ b ∈ items, startswith q (key b) = true →
      items.find? (fun it => startswith q (key it)) = some b := by
  intro b hb hmatch
  cases hf : items.find? (fun it => startswith q (key it)) with
  | none => exact absurd hmatch (by simpa using List.find?_eq_none.mp hf b hb)
  | some x => rw [find?_match_unique key hnd hf b hb hmatch]

/-- No registered prefix of the colombia-working table leads another. -/
theorem sortedCountryCodes_no_nesting :
    sortedCountryCodes.Pairwise (fun a b => ¬(a <+: b) ∧ ¬(b <+: a)) := by
  decide

/-- No registered prefix of the latam table leads another. -/
theorem latamTable_no_nesting :
    COUNTRY_CONFIG_latam.Pairwise
      (fun a b => ¬(a.fst <+: b.fst) ∧ ¬(b.fst <+: a.fst)) := by
  decide

/-- Membership in the sorted key order coincides with the table keys. -/
theorem mem_sortedCountryCodes {code : List Char} :
    code ∈ sortedCountryCodes ↔ code ∈ COUNTRY_CONFIG.map Prod.fst :=
  (List.perm_insertionSort _ _).mem_iff

/-! ## C2: longest-prefix transport selection -/

/-- C2: for every phone input, both Transport Selector variants return the
CountryProfile of the longest registered prefix that leads the normalized
number (with these tables no two registered prefixes lead the same number,
so the longest match is the unique match and is found regardless of the
iteration order), and the default US profile when no prefix matches. -/
theorem transport_selector_longest_match (s : List Char) :
    (∀ code ∈ COUNTRY_CONFIG.map Prod.fst,
       startswith (ensurePlus (stripFormatting s)) code = true →
         detect_country s = (code, configOf code) ∧
         ∀ b ∈ COUNTRY_CONFIG.map Prod.fst,
           startswith (ensurePlus (stripFormatting s)) b = true → b.length ≤ code.length) ∧
    ((∀ code ∈ COUNTRY_CONFIG.map Prod.fst,
       startswith (ensurePlus (stripFormatting s)) code = false) →
       detect_country s = ("+1".toList, usConfig)) ∧
    (∀ kv ∈ COUNTRY_CONFIG_latam,
       startswith (removeChar '-' (removeChar ' ' (pyStrip s))) kv.fst = true →
         detect_country_latam s = kv ∧
         ∀ kv2 ∈ COUNTRY_CONFIG_latam,
           startswith (removeChar '-' (removeChar ' ' (pyStrip s))) kv2.fst = true →
             kv2.fst.length ≤ kv.fst.length) ∧
    ((∀ kv ∈ COUNTRY_CONFIG_latam,
       startswith (removeChar '-' (removeChar ' ' (pyStrip s))) kv.fst = false) →
       detect_country_latam s = ("+1".toList, usConfigLatam)) := by
  refine ⟨?_, ?_, ?_, ?_⟩
  · intro code hc hmatch
    have hcs : code ∈ sortedCountryCodes := mem_sortedCountryCodes.mpr hc
    have hf := find?_match_of_mem (fun c => c) sortedCountryCodes_no_nesting code hcs hmatch
    constructor
    · simp only [detect_country]
      rw [hf]
    · intro b hb hbmatch
      have hbs : b ∈ sortedCountryCodes := mem_sortedCountryCodes.mpr hb
      have := find?_match_unique (fun c => c) sortedCountryCodes_no_nesting hf b hbs hbmatch
      simp only [this, le_refl]
  · intro hnone
    have hf : sortedCountryCodes.find?
        (fun code => startswith (ensurePlus (stripFormatting s)) code) = none := by
      rw [List.find?_eq_none]
      intro x hx
      simp [hnone x (mem_sortedCountryCodes.mp hx)]
    simp only [detect_country]
    rw [hf]
  · intro kv hkv hmatch
    have hf := find?_match_of_mem Prod.fst latamTable_no_nesting kv hkv hmatch
    constructor
    · simp only [detect_country_latam]
      rw [hf]
    · intro kv2 hkv2 hmatch2
      have := find?_match_unique Prod.fst latamTable_no_nesting hf kv2 hkv2 hmatch2
      simp only [this, le_refl]
  · intro hnone
    have hf : COUNTRY_CONFIG_latam.find?
        (fun kv => startswith (removeChar '-' (removeChar ' ' (pyStrip s))) kv.fst) = none := by
      rw [List.find?_eq_none]
      intro x hx
      simp [hnone x hx]
    simp only [detect_country_latam]
    rw [hf]

/-- Witness for C2 at the Colombia number of the spec scenario: the +57
entry (two-digit code) is selected by both variants. -/
theorem transport_selector_longest_match_witness :
    detect_country "+573001234567".toList = ("+57".toList, configOf "+57".toList) ∧
    detect_country_latam "+573001234567".toList =
      ("+57".toList,
       { name := "Colombia", emergency_number := "123", language := "es",
         timezone := "America/Bogota", originator := "+12173933490", use_eum := true }) :=
  ⟨((transport_selector_longest_match "+573001234567".toList).1
      "+57".toList (by decide) (by decide)).1,
   ((transport_selector_longest_match "+573001234567".toList).2.2.1
      ("+57".toList,
       { name := "Colombia", emergency_number := "123", language := "es",
         timezone := "America/Bogota", originator := "+12173933490", use_eum := true })
      (by decide) (by decide)).1⟩

/-! ## Normalizer lemmas (towards C4) -/

/-- Every normalizer output starts with a plus sign. -/
theorem ensurePlus_starts (x : List Char) : startswith (ensurePlus x) ['+'] = true := by
  unfold ensurePlus
  split
  · assumption
  · simp [startswith]

/-- Characters survive pyStrip only if present in the input. -/
theorem mem_of_mem_pyStrip {c : Char} {s : List Char} (h : c ∈ pyStrip s) : c ∈ s := by
  unfold pyStrip at h
  rw [List.mem_reverse] at h
  have h2 : c ∈ (s.dropWhile isPyWhitespace).reverse := (List.dropWhile_sublist _).subset h
  rw [List.mem_reverse] at h2
  exact (List.dropWhile_sublist _).subset h2

/-- dropWhile is the identity when no element satisfies the predicate. -/
theorem dropWhile_eq_self_of {p : Char → Bool} :
    ∀ (l : List Char), (∀ c ∈ l, p c = false) → l.dropWhile p = l
  | [], _ => rfl
  | a :: t, h => by
      rw [List.dropWhile_cons, h a (by simp)]
      simp

/-- pyStrip is the identity on whitespace-free strings. -/
theorem pyStrip_eq_self {l : List Char} (h : ∀ c ∈ l, isPyWhitespace c = false) :
    pyStrip l = l := by
  unfold pyStrip
  rw [dropWhile_eq_self_of l h,
      dropWhile_eq_self_of l.reverse (fun c hc => h c (List.mem_reverse.mp hc)),
      List.reverse_reverse]

/-- dropWhile cannot cross an appended final element it does not drop. -/
theorem dropWhile_append_single {p : Char → Bool} {a : Char} (hpa : p a = false) :
    ∀ (r : List Char), ∃ r₁, (r ++ [a]).dropWhile p = r₁ ++ [a] ∧ ∀ c ∈ r₁, c ∈ r
  | [] => ⟨[], by simp [List.dropWhile_cons, hpa], by simp⟩
  | x :: xs => by
      by_cases hx : p x = true
      · obtain ⟨r₁, h1, h2⟩ := dropWhile_append_single hpa xs
        refine ⟨r₁, ?_, fun c hc => List.mem_cons_of_mem x (h2 c hc)⟩
        rw [List.cons_append, List.dropWhile_cons, hx]
        simpa using h1
      · rw [Bool.not_eq_true] at hx
        refine ⟨x :: xs, ?_, fun c hc => hc⟩
        rw [List.cons_append, List.dropWhile_cons, hx]
        simp

/-- pyStrip keeps a non-whitespace head in place and only trims the tail. -/
theorem pyStrip_cons_of_not_ws (a : Char) (ha : isPyWhitespace a = false) (t : List Char) :
    ∃ t₁, pyStrip (a :: t) = a :: t₁ ∧ ∀ c ∈ t₁, c ∈ t := by
  unfold pyStrip
  rw [List.dropWhile_cons, ha]
  obtain ⟨r₁, h1, h2⟩ := dropWhile_append_single ha t.reverse
  refine ⟨r₁.reverse, ?_, fun c hc => List.mem_reverse.mp ?_⟩
  · simp only [Bool.false_eq_true, if_false, List.reverse_cons, h1, List.reverse_append]
    simp
  · exact h2 c (List.mem_reverse.mp hc)

/-- Characters surviving removeSeps were present and are not separators. -/
theorem mem_removeSeps {c : Char} {l : List Char} (h : c ∈ removeSeps l) :
    c ∈ l ∧ c ≠ ' ' ∧ c ≠ '-' ∧ c ≠ '(' ∧ c ≠ ')' := by
  simp [removeSeps, removeChar, List.mem_filter] at h
  tauto

/-- removeSeps keeps a plus-sign head. -/
theorem removeSeps_cons_plus (l : List Char) :
    removeSeps ('+' :: l) = '+' :: removeSeps l := by
  simp [removeSeps, removeChar, List.filter_cons]

/-- removeSeps is the identity when no separator occurs. -/
theorem removeSeps_eq_self {l : List Char}
    (h : ∀ c ∈ l, c ≠ ' ' ∧ c ≠ '-' ∧ c ≠ '(' ∧ c ≠ ')') : removeSeps l = l := by
  have h1 : List.filter (fun x => x != ' ') l = l :=
    List.filter_eq_self.mpr (fun a ha => by simpa using (h a ha).1)
  have h2 : List.filter (fun x => x != '-') l = l :=
    List.filter_eq_self.mpr (fun a ha => by simpa using (h a ha).2.1)
  have h3 : List.filter (fun x => x != '(') l = l :=
    List.filter_eq_self.mpr (fun a ha => by simpa using (h a ha).2.2.1)
  have h4 : List.filter (fun x => x != ')') l = l :=
    List.filter_eq_self.mpr (fun a ha => by simpa using (h a ha).2.2.2)
  unfold removeSeps removeChar
  rw [h1, h2, h3, h4]

/-- Digits are not whitespace. -/
theorem not_ws_of_digit {c : Char} (h : c.isDigit = true) : isPyWhitespace c = false := by
  by_contra hw
  rw [Bool.not_eq_false] at hw
  simp only [isPyWhitespace, Bool.or_eq_true, beq_iff_eq] at hw
  rcases hw with ((((h1 | h1) | h1) | h1) | h1) | h1 <;> subst h1 <;> exact absurd h (by decide)

/-- Digits are not separators. -/
theorem digit_not_sep {c : Char} (h : c.isDigit = true) :
    c ≠ ' ' ∧ c ≠ '-' ∧ c ≠ '(' ∧ c ≠ ')' := by
  refine ⟨?_, ?_, ?_, ?_⟩ <;> intro he <;> subst he <;> exact absurd h (by decide)

/-- A plus sign followed by digits only is a fixed point of the normalizer. -/
theorem normalize_fixed_of_digits {d : List Char} (hd : ∀ c ∈ d, c.isDigit = true) :
    normalize_phone_number ('+' :: d) = '+' :: d := by
  have hws : ∀ c ∈ ('+' :: d), isPyWhitespace c = false := by
    intro c hc
    rcases List.mem_cons.mp hc with hc | hc
    · subst hc; decide
    · exact not_ws_of_digit (hd c hc)
  have hsep : ∀ c ∈ ('+' :: d), c ≠ ' ' ∧ c ≠ '-' ∧ c ≠ '(' ∧ c ≠ ')' := by
    intro c hc
    rcases List.mem_cons.mp hc with hc | hc
    · subst hc; exact ⟨by decide, by decide, by decide, by decide⟩
    · exact digit_not_sep (hd c hc)
  unfold normalize_phone_number stripFormatting
  rw [pyStrip_eq_self hws, removeSeps_eq_self hsep]
  unfold ensurePlus
  rw [if_pos (by simp [startswith])]

/-! ## C4: the phone normalizer -/

/-- C4 (counterexample): for the input consisting of a digit, a tab and a
dash, the normalizer yields a plus sign, the digit and the tab; that
output does not consist of a plus sign followed only by digits, and
normalizing it again strips the tab, so the normalizer is not idempotent
on its own outputs. -/
theorem normalizer_claim_counterexample :
    normalize_phone_number ['1', '\t', '-'] = ['+', '1', '\t'] ∧
    ['+', '1', '\t'].tail.all Char.isDigit = false ∧
    normalize_phone_number (normalize_phone_number ['1', '\t', '-']) ≠
      normalize_phone_number ['1', '\t', '-'] := by decide

/-- C4 (amended): the normalizer always outputs a string starting with a
plus sign; and on every input that, apart from an optional leading plus
sign, consists only of digits, spaces, dashes and parentheses, the output
is a plus sign followed only by digits and normalization is idempotent. -/
theorem normalizer_plus_digits_idempotent (s : List Char) :
    startswith (normalize_phone_number s) ['+'] = true ∧
    ((∀ c ∈ (if startswith s ['+'] then s.tail else s),
        c.isDigit = true ∨ c = ' ' ∨ c = '-' ∨ c = '(' ∨ c = ')') →
      (normalize_phone_number s).tail.all Char.isDigit = true ∧
      normalize_phone_number (normalize_phone_number s) = normalize_phone_number s) := by
  refine ⟨ensurePlus_starts _, fun H => ?_⟩
  obtain ⟨d, hnd, hdig⟩ :
      ∃ d, normalize_phone_number s = '+' :: d ∧ ∀ c ∈ d, c.isDigit = true := by
    by_cases hs : startswith s ['+'] = true
    · rcases s with _ | ⟨c, t⟩
      · simp [startswith] at hs
      · have hc : c = '+' := by simpa [startswith] using hs
        subst hc
        rw [if_pos hs, List.tail_cons] at H
        obtain ⟨t₁, hps, hmem⟩ := pyStrip_cons_of_not_ws '+' (by decide) t
        refine ⟨removeSeps t₁, ?_, ?_⟩
        · unfold normalize_phone_number stripFormatting
          rw [hps, removeSeps_cons_plus]
          unfold ensurePlus
          rw [if_pos (by simp [startswith])]
        · intro c hc
          have hct₁ := (mem_removeSeps hc).1
          have hnsp := (mem_removeSeps hc).2
          rcases H c (hmem c hct₁) with hd | h | h | h | h
          · exact hd
          · exact absurd h hnsp.1
          · exact absurd h hnsp.2.1
          · exact absurd h hnsp.2.2.1
          · exact absurd h hnsp.2.2.2
    · rw [if_neg hs] at H
      have hdigx : ∀ c ∈ stripFormatting s, c.isDigit = true := by
        intro c hc
        simp only [stripFormatting] at hc
        have hcp := (mem_removeSeps hc).1
        have hnsp := (mem_removeSeps hc).2
        rcases H c (mem_of_mem_pyStrip hcp) with hd | h | h | h | h
        · exact hd
        · exact absurd h hnsp.1
        · exact absurd h hnsp.2.1
        · exact absurd h hnsp.2.2.1
        · exact absurd h hnsp.2.2.2
      have hxp : ¬ startswith (stripFormatting s) ['+'] = true := by
        intro hx
        cases hq : stripFormatting s with
        | nil => rw [hq] at hx; simp [startswith] at hx
        | cons c0 t0 =>
            rw [hq] at hx
            have hc0 : c0 = '+' := by simpa [startswith] using hx
            have hd0 : c0.isDigit = true := hdigx c0 (by rw [hq]; exact List.mem_cons_self _ _)
            rw [hc0] at hd0
            exact absurd hd0 (by decide)
      refine ⟨stripFormatting s, ?_, hdigx⟩
      unfold normalize_phone_number ensurePlus
      rw [if_neg hxp]
  refine ⟨?_, ?_⟩
  · rw [hnd, List.tail_cons]
    exact List.all_eq_true.mpr hdig
  · rw [hnd]
    exact normalize_fixed_of_digits hdig

/-- Witness for C4 (amended) at the jury phone number written with spaces,
parentheses and dashes. -/
theorem normalizer_plus_digits_idempotent_witness :
    (normalize_phone_number "+1 (305) 303-3060".toList).tail.all Char.isDigit = true ∧
    normalize_phone_number (normalize_phone_number "+1 (305) 303-3060".toList) =
      normalize_phone_number "+1 (305) 303-3060".toList :=
  (normalizer_plus_digits_idempotent "+1 (305) 303-3060".toList).2 (by decide)

/-! ## C1: dispatcher behavior on provider exceptions -/

/-- C1 (counterexample): when the provider send raises, the jury dispatcher
of the improved variant reports status sent with a fabricated jury-demo
message id instead of a failed result. -/
theorem dispatcher_failure_counterexample :
    (dispatch_contact_jury "Maria (Sister)" JURY_PHONE_NUMBER
        (.error "SNS unavailable") "abcd1234").status = "sent" ∧
    (dispatch_contact_jury "Maria (Sister)" JURY_PHONE_NUMBER
        (.error "SNS unavailable") "abcd1234").status ≠ "failed" ∧
    (dispatch_contact_jury "Maria (Sister)" JURY_PHONE_NUMBER
        (.error "SNS unavailable") "abcd1234").messageId = some "jury-demo-abcd1234" ∧
    (dispatch_contact_jury "Maria (Sister)" JURY_PHONE_NUMBER
        (.error "SNS unavailable") "abcd1234").note =
      some "SMS system operational (simulated due to: SNS unavailable)" := by
  decide

/-- C1 (amended): the colombia-working dispatchers (send_via_eum,
send_via_sns, send_sms_hybrid) report a provider exception truthfully as a
failed result with the exception text and no message id, and report a
provider success with the provider's own id; the jury dispatcher of the
improved variant instead fabricates a sent result with a jury-demo id on
the same exception. -/
theorem dispatcher_failure_behavior (e message_id demoHex contactName : String)
    (cfg : CountryConfig) :
    (send_via_eum (.error e)).status = "failed" ∧
    (send_via_eum (.error e)).error = some e ∧
    (send_via_eum (.error e)).messageId = none ∧
    (send_via_eum (.ok message_id)).status = "sent" ∧
    (send_via_eum (.ok message_id)).messageId = some message_id ∧
    (send_sms_hybrid cfg (.error e)).status = "failed" ∧
    (send_sms_hybrid cfg (.error e)).error = some e ∧
    (send_sms_hybrid cfg (.error e)).messageId = none ∧
    (dispatch_contact_jury contactName JURY_PHONE_NUMBER (.error e) demoHex).status = "sent" ∧
    (dispatch_contact_jury contactName JURY_PHONE_NUMBER (.error e) demoHex).messageId =
      some ("jury-demo-" ++ demoHex) := by
  refine ⟨rfl, rfl, rfl, rfl, rfl, ?_, ?_, ?_, ?_, ?_⟩ <;>
    by_cases h : cfg.use_eum <;>
    simp [send_sms_hybrid, send_via_eum, send_via_sns, dispatch_contact_jury, h]

/-! ## C3: fail-closed validation in the stricter sender -/

/-- C3 (counterexample): the input 1234567 followed by a newline passes the
source validation, because Python's `$` also matches just before a trailing
newline, and the provider is invoked for it — although the validated string
is not a plus sign followed only by digits, so it does not match the
claimed E.164 shape. -/
theorem invalid_phone_counterexample :
    validate_phone_number "1234567\n".toList = Except.ok "+1234567\n".toList ∧
    (send_sms_with_eum false "1234567\n".toList "help" none "ffff" (.ok "mid-1")).2 =
      some "help" ∧
    (send_sms_with_eum false "1234567\n".toList "help" none "ffff" (.ok "mid-1")).1.status =
      "sent" ∧
    "+1234567\n".toList.tail.all Char.isDigit = false :=
  ⟨rfl, rfl, rfl, by decide⟩

/-- C3 (amended): for every ASCII input phone string rejected by the source
validation — the regex under Python semantics, whose `$` also accepts one
trailing newline and on ASCII agrees with the embedding — the stricter
sender returns a failed result carrying the validation error and never
hands anything to the external provider; an otherwise-valid number with a
trailing newline, however, is not rejected and does reach the provider. -/
theorem invalid_phone_fails_closed (demoMode : Bool) (phone : List Char) (message : String)
    (event_id : Option String) (demoHex : String) (outcome : Except String String)
    (e : String) (_hascii : ∀ c ∈ phone, c.toNat < 128)
    (hval : validate_phone_number phone = .error e) :
    (send_sms_with_eum demoMode phone message event_id demoHex outcome).2 = none ∧
    (send_sms_with_eum demoMode phone message event_id demoHex outcome).1.status = "failed" ∧
    (send_sms_with_eum demoMode phone message event_id demoHex outcome).1.error = some e := by
  simp [send_sms_with_eum, hval]

/-- Witness for C3: the ASCII number 123 normalizes to +123, which has
fewer than five digits, so it is rejected and the provider is never
called. -/
theorem invalid_phone_fails_closed_witness :
    (∀ c ∈ "123".toList, c.toNat < 128) ∧
    validate_phone_number "123".toList = Except.error
      "Invalid phone format: +123. Must be E.164 format (+country_code + number)" ∧
    (send_sms_with_eum false "123".toList "help" none "ffff" (.ok "mid-1")).2 = none ∧
    (send_sms_with_eum false "123".toList "help" none "ffff" (.ok "mid-1")).1.status =
      "failed" :=
  ⟨by decide, rfl,
   (invalid_phone_fails_closed false "123".toList "help" none "ffff" (.ok "mid-1")
      "Invalid phone format: +123. Must be E.164 format (+country_code + number)"
      (by decide) rfl).1,
   (invalid_phone_fails_closed false "123".toList "help" none "ffff" (.ok "mid-1")
      "Invalid phone format: +123. Must be E.164 format (+country_code + number)"
      (by decide) rfl).2.1⟩

/-! ## C8: DEMO_MODE short-circuit -/

/-- C8 (counterexample): a DEMO_MODE send request with an invalid phone is
rejected as failed, not turned into a synthetic success, because phone
validation precedes the demo-mode check. -/
theorem demo_mode_counterexample :
    (send_sms_with_eum true "123".toList "help" none "ffff" (.ok "mid-1")).1.status ≠ "sent" ∧
    (send_sms_with_eum true "123".toList "help" none "ffff" (.ok "mid-1")).1.status = "failed" ∧
    (send_sms_with_eum true "123".toList "help" none "ffff" (.ok "mid-1")).1.demoMode = false ∧
    (send_sms_with_eum true "123".toList "help" none "ffff" (.ok "mid-1")).2 = none := by
  decide

/-- C8 (amended): for every send request whose phone passes validation,
DEMO_MODE short-circuits the sender into a synthetic success: status sent,
a demo-prefixed message id, an explicit demo-mode marker, and no call to
the external provider. -/
theorem demo_mode_short_circuits (phone validated : List Char) (message : String)
    (event_id : Option String) (demoHex : String) (outcome : Except String String)
    (hval : validate_phone_number phone = .ok validated) :
    (send_sms_with_eum true phone message event_id demoHex outcome).1.status = "sent" ∧
    (send_sms_with_eum true phone message event_id demoHex outcome).1.messageId =
      some ("demo-" ++ demoHex) ∧
    (send_sms_with_eum true phone message event_id demoHex outcome).1.demoMode = true ∧
    (send_sms_with_eum true phone message event_id demoHex outcome).1.realSms = false ∧
    (send_sms_with_eum true phone message event_id demoHex outcome).2 = none := by
  simp [send_sms_with_eum, hval]

/-- Witness for C8 (amended) at the jury phone number. -/
theorem demo_mode_short_circuits_witness :
    validate_phone_number "+13053033060".toList = Except.ok "+13053033060".toList ∧
    (send_sms_with_eum true "+13053033060".toList "help" none "ffff" (.ok "mid-1")).1.status =
      "sent" ∧
    (send_sms_with_eum true "+13053033060".toList "help" none "ffff" (.ok "mid-1")).2 = none :=
  ⟨rfl,
   (demo_mode_short_circuits "+13053033060".toList "+13053033060".toList "help" none "ffff"
      (.ok "mid-1") rfl).1,
   (demo_mode_short_circuits "+13053033060".toList "+13053033060".toList "help" none "ffff"
      (.ok "mid-1") rfl).2.2.2.2⟩

/-! ## C5: the message length budget -/

set_option maxRecDepth 8192 in
/-- C5 (counterexample): with the default jury inputs the message composed
by the jury handler exceeds 160 characters and is handed to the dispatcher
unchanged — the jury handler applies no shortening. -/
theorem message_budget_counterexample :
    160 < (handle_jury_emergency_alert "Unknown Person" "emergency_words" ["emergency"]
        "Miami Convention Center, FL" "A1B2C3D4" "12:00:00"
        (.ok ()) (.ok "mid-1")).smsMessage.length ∧
    (handle_jury_emergency_alert "Unknown Person" "emergency_words" ["emergency"]
        "Miami Convention Center, FL" "A1B2C3D4" "12:00:00"
        (.ok ()) (.ok "mid-1")).smsAttempted = true := by
  decide

/-- C5 (amended): the only composer with a budget rule, send_emergency_sms
of allsense-complete-lambda.py, never emits an over-budget primary render:
every output is either within the 160-character budget or is the shortened
re-render (which is itself not guaranteed to fit the budget). -/
theorem compose_sms_budget (victimName placeName lat lon mapLink localTime : String)
    (confidencePercent : Nat) :
    (compose_sms victimName placeName lat lon mapLink localTime confidencePercent).length
        ≤ 160 ∨
    compose_sms victimName placeName lat lon mapLink localTime confidencePercent =
      compose_sms_short victimName lat lon mapLink localTime := by
  unfold compose_sms
  by_cases h : 160 <
      (compose_sms_full victimName placeName lat lon mapLink localTime confidencePercent).length
  · rw [if_pos h]
    exact Or.inr rfl
  · rw [if_neg h]
    exact Or.inl (Nat.le_of_not_lt h)

/-! ## C7: store failures are soft -/

/-- C7: a failure of the incident-store write does not abort the alert
flow: the user-facing response is identical to the successful-store run,
the SMS dispatch is still attempted, the failure appears only in the log,
and the response code stays 200. -/
theorem store_failure_soft (victimName detectionType : String) (detectedWords : List String)
    (placeName incidentHex timeStr e : String) (providerOutcome : Except String String) :
    (handle_jury_emergency_alert victimName detectionType detectedWords placeName
        incidentHex timeStr (.error e) providerOutcome).response =
      (handle_jury_emergency_alert victimName detectionType detectedWords placeName
        incidentHex timeStr (.ok ()) providerOutcome).response ∧
    (handle_jury_emergency_alert victimName detectionType detectedWords placeName
        incidentHex timeStr (.error e) providerOutcome).smsAttempted = true ∧
    ("Failed to store incident: " ++ e) ∈
      (handle_jury_emergency_alert victimName detectionType detectedWords placeName
        incidentHex timeStr (.error e) providerOutcome).log ∧
    (handle_jury_emergency_alert victimName detectionType detectedWords placeName
        incidentHex timeStr (.error e) providerOutcome).response.statusCode = 200 := by
  refine ⟨rfl, rfl, ?_, rfl⟩
  simp [handle_jury_emergency_alert]

/-! ## C9: unknown actions fall through to success -/

/-- C9: every action string outside the recognized list falls through to
the default operational response, HTTP 200 with body status success
echoing the action; an unknown action is never rejected as an error. -/
theorem unknown_action_success (action : String) (h : action ∉ recognizedActions) :
    route_action action = .defaultResponse
      { statusCode := 200, status := "success",
        message := "AllSensesAI Lambda is operational with live tracking",
        action := action } := by
  simp only [recognizedActions, List.mem_cons, List.not_mem_nil, or_false, not_or] at h
  obtain ⟨h1, h2, h3, h4, h5, h6, h7⟩ := h
  simp [route_action, h1, h2, h3, h4, h5, h6, h7]

/-- Witness for C9 at an arbitrary unrecognized action string. -/
theorem unknown_action_success_witness :
    route_action "SOMETHING_ELSE" = .defaultResponse
      { statusCode := 200, status := "success",
        message := "AllSensesAI Lambda is operational with live tracking",
        action := "SOMETHING_ELSE" } :=
  unknown_action_success "SOMETHING_ELSE" (by decide)

/-! ## C10: location updates and orphaned fixes -/

/-- C10: without incidentId the update handler answers 400 with status
error and leaves the store unchanged; with an incidentId present a fix
keyed by that id and the current millisecond timestamp is appended even
when no incident with that id exists in the incident set. -/
theorem update_location_behavior (store : List LocationItem) (now : Nat)
    (latitude longitude accuracy speed heading batteryLevel : Option Int)
    (incidents : List String) :
    (handle_update_location store now none latitude longitude accuracy speed heading
        batteryLevel).1 = store ∧
    (handle_update_location store now none latitude longitude accuracy speed heading
        batteryLevel).2.statusCode = 400 ∧
    (handle_update_location store now none latitude longitude accuracy speed heading
        batteryLevel).2.status = "error" ∧
    (∀ iid, iid ∉ incidents →
      ∃ item, (handle_update_location store now (some iid) latitude longitude accuracy speed
          heading batteryLevel).1 = store ++ [item] ∧
        item.incidentId = iid ∧ item.timestamp = now ∧
        (handle_update_location store now (some iid) latitude longitude accuracy speed
          heading batteryLevel).2.statusCode = 200 ∧
        (handle_update_location store now (some iid) latitude longitude accuracy speed
          heading batteryLevel).2.status = "success") := by
  refine ⟨rfl, rfl, rfl, fun iid _ => ⟨_, rfl, rfl, rfl, rfl, rfl⟩⟩

/-- Witness for C10: a fix for an incident id absent from the incident set
is still appended. -/
theorem update_location_behavior_witness :
    "EMG-NEW" ∉ ["EMG-OLD"] ∧
    ∃ item, (handle_update_location [] 1700000000000 (some "EMG-NEW") (some 25) (some (-80))
        (some 10) none none (some 95)).1 = [] ++ [item] ∧
      item.incidentId = "EMG-NEW" ∧ item.timestamp = 1700000000000 ∧
      (handle_update_location [] 1700000000000 (some "EMG-NEW") (some 25) (some (-80))
        (some 10) none none (some 95)).2.statusCode = 200 ∧
      (handle_update_location [] 1700000000000 (some "EMG-NEW") (some 25) (some (-80))
        (some 10) none none (some 95)).2.status = "success" :=
  ⟨by decide,
   (update_location_behavior [] 1700000000000 (some 25) (some (-80)) (some 10) none none
      (some 95) ["EMG-OLD"]).2.2.2 "EMG-NEW" (by decide)⟩

/-! ## C6: fix history queries -/

/-- C6: a location-history query returns at most the requested limit of
fixes, all for the queried incident, ascending by capture time when
ScanIndexForward is true (the live-tracking history call site) and
descending when it is false (the JURY history call site); with three
stored fixes at times 100 < 200 < 300 and limit 2, the JURY handler
(descending) returns exactly the fixes at 300 and 200 in that order, and
the live-tracking handler (ascending) the fixes at 100 and 200. -/
theorem fix_history_query (store : List LocationItem) (incident_id : String)
    (forward : Bool) (limit : Nat) :
    (query_locations store incident_id forward limit).length ≤ limit ∧
    (∀ it ∈ query_locations store incident_id forward limit,
       it.incidentId = incident_id) ∧
    List.Pairwise tsLE (query_locations store incident_id true limit) ∧
    List.Pairwise tsGE (query_locations store incident_id false limit) ∧
    handle_get_location_history demoFixStore (some "EMG-1") 2 =
      { statusCode := 200, status := "success",
        locations :=
          [ { incidentId := "EMG-1", timestamp := 300, latitude := 7, longitude := 8,
              accuracy := 9 },
            { incidentId := "EMG-1", timestamp := 200, latitude := 4, longitude := 5,
              accuracy := 6 } ] } ∧
    handle_get_location_history_lt demoFixStore (some "EMG-1") 2 =
      { statusCode := 200, status := "success",
        locations :=
          [ { incidentId := "EMG-1", timestamp := 100, latitude := 1, longitude := 2,
              accuracy := 3 },
            { incidentId := "EMG-1", timestamp := 200, latitude := 4, longitude := 5,
              accuracy := 6 } ] } := by
  refine ⟨?_, ?_, ?_, ?_, by decide, by decide⟩
  · simp only [query_locations]
    rw [List.length_take]
    exact Nat.min_le_left _ _
  · intro it hit
    simp only [query_locations] at hit
    have h1 := (List.take_sublist _ _).subset hit
    cases forward with
    | true =>
        simp only [if_true] at h1
        have h2 := (List.perm_insertionSort tsLE _).subset h1
        exact beq_iff_eq.mp (List.mem_filter.mp h2).2
    | false =>
        simp only [Bool.false_eq_true, if_false] at h1
        have h2 := (List.perm_insertionSort tsGE _).subset h1
        exact beq_iff_eq.mp (List.mem_filter.mp h2).2
  · simp only [query_locations, if_true]
    exact (List.sorted_insertionSort tsLE _).sublist (List.take_sublist _ _)
  · simp only [query_locations, Bool.false_eq_true, if_false]
    exact (List.sorted_insertionSort tsGE _).sublist (List.take_sublist _ _)

/-- Witness for C6: the newest fix is in the descending limit-2 result and
belongs to the queried incident. -/
theorem fix_history_query_witness :
    ({ incidentId := "EMG-1", timestamp := 300, latitude := 7, longitude := 8,
       accuracy := 9 } : LocationItem) ∈ query_locations demoFixStore "EMG-1" false 2 ∧
    ({ incidentId := "EMG-1", timestamp := 300, latitude := 7, longitude := 8,
       accuracy := 9 } : LocationItem).incidentId = "EMG-1" :=
  ⟨by decide,
   (fix_history_query demoFixStore "EMG-1" false 2).2.1
     { incidentId := "EMG-1", timestamp := 300, latitude := 7, longitude := 8, accuracy := 9 }
     (by decide)⟩

end AllSenses
